import Mathlib

/-!
Shallow embedding of the ZumbaWithPooh gallery backend (`server.js`).

The server is an Express application over five MongoDB collections
(CardData, Image, Offer, ContactInquiry, VideoReview).  Each route handler
is embedded as a pure function over an explicit store state `St`; external
collaborators are passed in as parameters:

* the Cloudinary upload outcome is `remote : Option String` — `some url`
  is a successful upload returning `result.secure_url = url`, `none` is an
  adapter failure (the promise rejects);
* the clock is `now : Nat` (a timestamp used for `Date.now` defaults);
* the mail relay outcome is `mailOk : Bool` (whether `sendMail` resolves).

Request fields arriving through `req.body` / `req.query` are `Option String`
(`none` = the field is absent, i.e. JS `undefined`).  JS truthiness on such
a field is `truthy` below.  The upload handler additionally records a trace
of its side effects so that ordering claims are statable.
-/

namespace ZumbaServer

/-- JS truthiness of an optional string field: `undefined` and `""` are
falsy, every other string is truthy. -/
def truthy : Option String → Bool
  | none => false
  | some s => !(s == "")

/-- Strip leading and trailing whitespace, as `Number()` does before
parsing. -/
def trimChars (l : List Char) : List Char :=
  ((l.dropWhile Char.isWhitespace).reverse.dropWhile Char.isWhitespace).reverse

/-- Accumulate a decimal digit string left to right; any non-digit makes
the whole string non-numeric. -/
def decDigitsAux : List Char → Nat → Option Nat
  | [], acc => some acc
  | c :: cs, acc =>
    if c.isDigit then decDigitsAux cs (10 * acc + (c.toNat - 48)) else none

/-- A non-empty decimal digit string's value. -/
def decDigits : List Char → Option Nat
  | [] => none
  | c :: cs => decDigitsAux (c :: cs) 0

/-- An optionally signed decimal integer string's value. -/
def signedChars : List Char → Option Int
  | [] => none
  | '-' :: cs => (decDigits cs).map (fun v => -(v : Int))
  | '+' :: cs => (decDigits cs).map (fun v => (v : Int))
  | c :: cs => (decDigits (c :: cs)).map (fun v => (v : Int))

/-- `Number(field)` followed by the `Number.isFinite` test, restricted to
the integral inputs this API uses: `none` (JS `undefined`) coerces to NaN;
a present string is trimmed, the empty/whitespace-only string coerces
to `0`, an optionally signed decimal integer string to its value, and
anything else (including `"Infinity"`) to a non-finite value, represented
as `none`.  Fractional, hex and exponent literals are outside the data
model (`cardNum` is an integral card index). -/
def jsNumber : Option String → Option Int
  | none => none
  | some s =>
    let t := trimChars s.data
    if t.isEmpty then some 0 else signedChars t

/-- One document of the `Image` collection (`imageSchema`). -/
structure ImageRec where
  url : String
  cardNum : Int
  slot : String
  createdAt : Nat
deriving DecidableEq

/-- One embedded card of a `CardData` document (`cardDataSchema.cards`);
all subfields are optional in the schema (`undefined` when never set). -/
structure Card where
  cardNum : Option Int
  beforeImg : Option String
  afterImg : Option String
  details : Option String
  name : Option String
  beforeWeight : Option String
  afterWeight : Option String
deriving DecidableEq

/-- A card with only `cardNum` set, as pushed by the upload handler
(`cardData.cards.push({ cardNum: cardNumNum })`). -/
def blankCard (n : Int) : Card :=
  ⟨some n, none, none, none, none, none, none⟩

/-- One document of the `CardData` collection (`cardDataSchema`). -/
structure CardSetRec where
  branch : String
  cards : List Card
deriving DecidableEq

/-- One document of the `Offer` collection (`offerSchema`). -/
structure OfferRec where
  key : String
  title : String
  details : String
  imageUrl : String
  updatedAt : Nat
deriving DecidableEq

/-- One document of the `ContactInquiry` collection
(`contactInquirySchema`). -/
structure InquiryRec where
  name : String
  email : String
  phone : String
  message : String
  createdAt : Nat
deriving DecidableEq

/-- The document store: the four collections the verified routes touch,
each a list in insertion order (`find`/`findOne` scan this order). -/
structure St where
  images : List ImageRec
  cardData : List CardSetRec
  offers : List OfferRec
  inquiries : List InquiryRec
deriving DecidableEq

/-- The empty store. -/
def St.empty : St := ⟨[], [], [], []⟩

/-! ## POST /api/upload -/

/-- Side effects of the upload handler, in execution order: the Cloudinary
upload, `Image.deleteMany`, `image.save`, `cardData.save`. -/
inductive UpEv where
  | remote
  | imgDelete
  | imgInsert
  | cardSave
deriving DecidableEq

/-- Which events write to the document store (the Cloudinary call does
not). -/
def isStoreEv : UpEv → Bool
  | .remote => false
  | .imgDelete => true
  | .imgInsert => true
  | .cardSave => true

/-- Response body of `POST /api/upload`. -/
inductive UploadBody where
  | ok (url : String) (cardNum : Int) (slot : String) (branch : String)
  | err (msg : String)
deriving DecidableEq

/-- Result of the upload handler: HTTP status, JSON body, store state
after the request, and the side-effect trace. -/
structure UploadRes where
  status : Nat
  body : UploadBody
  state : St
  trace : List UpEv
deriving DecidableEq

/-- The `slot` values the `imageSchema` enum accepts; `image.save()`
throws a validation error for any other value. -/
def validSlot (s : String) : Bool := s == "before" || s == "after"

/-- `if (slot === 'before') card.beforeImg = url; if (slot === 'after')
card.afterImg = url;` -/
def setSlotUrl (c : Card) (slot url : String) : Card :=
  { c with
    beforeImg := if slot == "before" then some url else c.beforeImg
    afterImg := if slot == "after" then some url else c.afterImg }

/-- `cardData.cards.find(c => c.cardNum === cardNumNum)`, updated in
place; when no card matches, a `{cardNum}` card is pushed at the end and
then updated. -/
def updateCards : List Card → Int → String → String → List Card
  | [], n, slot, url => [setSlotUrl (blankCard n) slot url]
  | c :: cs, n, slot, url =>
    if c.cardNum == some n then setSlotUrl c slot url :: cs
    else c :: updateCards cs n slot url

/-- `CardData.findOne({branch})` then mutate-and-save: the first document
with this branch is updated in place; when none exists a fresh
`{branch, cards: []}` document is created and inserted (appended). -/
def upsertCardData : List CardSetRec → String → Int → String → String → List CardSetRec
  | [], b, n, slot, url => [⟨b, updateCards [] n slot url⟩]
  | r :: rs, b, n, slot, url =>
    if r.branch == b then ⟨b, updateCards r.cards n slot url⟩ :: rs
    else r :: upsertCardData rs b n slot url

/-- `POST /api/upload` (server.js:178-243).  `file` is presence of the
multipart `image` part; `branch`, `cardNum`, `slot` are the form fields;
`remote` is the Cloudinary outcome; `now` stamps the new `Image`
document's `createdAt`. -/
def postUpload (st : St) (file : Bool) (branch cardNum slot : Option String)
    (remote : Option String) (now : Nat) : UploadRes :=
  let cardNumNum := jsNumber cardNum
  if !(file && truthy branch && cardNumNum.isSome && truthy slot) then
    ⟨400, .err "Missing image, branch, cardNum or slot", st, []⟩
  else
    let n := cardNumNum.getD 0
    let b := branch.getD ""
    let s := slot.getD ""
    match remote with
    | none => ⟨500, .err "Image upload failed", st, [.remote]⟩
    | some url =>
      let purged := st.images.filter (fun i => !(i.cardNum == n && i.slot == s))
      if !(validSlot s) then
        ⟨500, .err "Image upload failed", { st with images := purged },
          [.remote, .imgDelete]⟩
      else
        let img : ImageRec := ⟨url, n, s, now⟩
        let st2 : St := { st with images := purged ++ [img] }
        let st3 : St := { st2 with cardData := upsertCardData st2.cardData b n s url }
        ⟨201, .ok url n s b, st3, [.remote, .imgDelete, .imgInsert, .cardSave]⟩

/-! ## GET /api/images -/

/-- Response body of `GET /api/images`. -/
inductive ImagesBody where
  | ok (items : List ImageRec)
  | err (msg : String)
deriving DecidableEq

/-- The Mongo filter built from the query: `{cardNum?, slot?}` applied to
one document. -/
def imageMatches (fNum : Option Int) (fSlot : Option String) (i : ImageRec) : Bool :=
  (match fNum with | none => true | some n => i.cardNum == n) &&
  (match fSlot with | none => true | some s => i.slot == s)

/-- Stable insertion by ascending `createdAt` (`sort({createdAt: 1})`). -/
def insertByCreated (i : ImageRec) : List ImageRec → List ImageRec
  | [] => [i]
  | j :: js => if i.createdAt < j.createdAt then i :: j :: js
               else j :: insertByCreated i js

/-- `Image.find(filter).sort({createdAt: 1})` ordering. -/
def sortByCreated : List ImageRec → List ImageRec
  | [] => []
  | i :: is' => insertByCreated i (sortByCreated is')

/-- `GET /api/images` (server.js:246-258).  A truthy `cardNum` query value
is added to the filter as a string which Mongoose casts to `Number`;
a value that does not cast throws, answered `500`. -/
def getImages (st : St) (cardNumQ slotQ : Option String) : Nat × ImagesBody :=
  let fSlot := if truthy slotQ then some (slotQ.getD "") else none
  if truthy cardNumQ then
    match jsNumber cardNumQ with
    | none => (500, .err "Failed to load images")
    | some n =>
      (200, .ok (sortByCreated (st.images.filter (imageMatches (some n) fSlot))))
  else
    (200, .ok (sortByCreated (st.images.filter (imageMatches none fSlot))))

/-! ## POST /api/save-cards and GET /api/load-cards -/

/-- Response body of `POST /api/save-cards`: `{success: true}` or an
error. -/
inductive SimpleBody where
  | ok
  | err (msg : String)
deriving DecidableEq

/-- Result of `POST /api/save-cards`. -/
structure SaveCardsRes where
  status : Nat
  body : SimpleBody
  state : St
deriving DecidableEq

/-- `POST /api/save-cards` (server.js:261-275): validate, then
`CardData.deleteMany({branch})` followed by inserting one fresh document
with the given cards verbatim.  `cards = none` models a body whose
`cards` is not an array (`!Array.isArray(cards)`). -/
def postSaveCards (st : St) (branch : Option String) (cards : Option (List Card)) :
    SaveCardsRes :=
  if !truthy branch || cards.isNone then ⟨400, .err "Invalid payload", st⟩
  else
    let b := branch.getD ""
    ⟨200, .ok,
      { st with cardData :=
          st.cardData.filter (fun r => !(r.branch == b)) ++ [⟨b, cards.getD []⟩] }⟩

/-- Response body of `GET /api/load-cards`. -/
inductive LoadCardsBody where
  | cards (cs : List Card)
  | err (msg : String)
deriving DecidableEq

/-- `GET /api/load-cards` (server.js:278-289): `400` on a falsy branch
query, else `{cards}` of the first document for that branch, `[]` when
none exists. -/
def getLoadCards (st : St) (branch : Option String) : Nat × LoadCardsBody :=
  if !truthy branch then (400, .err "Missing branch")
  else
    match st.cardData.find? (fun r => r.branch == branch.getD "") with
    | some r => (200, .cards r.cards)
    | none => (200, .cards [])

/-! ## /api/offers/latest -/

/-- Response body of `GET /api/offers/latest`: JSON `null` when no
singleton exists, else its shaped view. -/
inductive OfferBody where
  | nothing
  | view (title details imageUrl : String) (updatedAt : Nat)
deriving DecidableEq

/-- `GET /api/offers/latest` (server.js:292-305).  Status is always `200`
here; the body distinguishes `null` from the shaped offer. -/
def getOffer (st : St) : OfferBody :=
  match st.offers.find? (fun o => o.key == "latestOffer") with
  | none => .nothing
  | some o => .view o.title o.details o.imageUrl o.updatedAt

/-- `Offer.findOneAndUpdate({key:'latestOffer'}, doc, {upsert: true})`:
replace the first document keyed `latestOffer`, or insert `doc` when none
matches. -/
def upsertOffer : List OfferRec → OfferRec → List OfferRec
  | [], doc => [doc]
  | o :: os, doc =>
    if o.key == "latestOffer" then doc :: os else o :: upsertOffer os doc

/-- Response body of `POST /api/offers/latest`. -/
inductive OfferPostBody where
  | saved (title details imageUrl : String) (updatedAt : Nat)
  | err (msg : String)
deriving DecidableEq

/-- Result of `POST /api/offers/latest`. -/
structure PostOfferRes where
  status : Nat
  body : OfferPostBody
  state : St
deriving DecidableEq

/-- `POST /api/offers/latest` (server.js:307-327): destructure with `''`
defaults, `400` when all three are falsy, else upsert the singleton with
`updatedAt = now` and answer the saved shape. -/
def postOffer (st : St) (title details imageUrl : Option String) (now : Nat) :
    PostOfferRes :=
  let t := title.getD ""
  let d := details.getD ""
  let i := imageUrl.getD ""
  if t == "" && d == "" && i == "" then ⟨400, .err "Nothing to save", st⟩
  else
    let doc : OfferRec := ⟨"latestOffer", t, d, i, now⟩
    ⟨200, .saved t d i now, { st with offers := upsertOffer st.offers doc }⟩

/-- `Offer.deleteOne({key:'latestOffer'})`: remove the first matching
document, if any. -/
def deleteFirstOffer : List OfferRec → List OfferRec
  | [] => []
  | o :: os => if o.key == "latestOffer" then os else o :: deleteFirstOffer os

/-- Result of `DELETE /api/offers/latest`. -/
structure DeleteOfferRes where
  status : Nat
  body : SimpleBody
  state : St
deriving DecidableEq

/-- `DELETE /api/offers/latest` (server.js:329-336): delete the singleton
if present, always `{success: true}`. -/
def deleteOffer (st : St) : DeleteOfferRes :=
  ⟨200, .ok, { st with offers := deleteFirstOffer st.offers }⟩

/-! ## POST /api/contact/inquiries -/

/-- Startup mail configuration: `mailTransporter` non-null (requires
`SMTP_HOST` and `CONTACT_TO_EMAIL` at startup) plus the address
constants. -/
structure MailConfig where
  hasTransporter : Bool
  contactTo : String
  contactFrom : String
deriving DecidableEq

/-- Response body of `POST /api/contact/inquiries`: the persisted inquiry
plus the `emailSent` flag, or an error. -/
inductive InquiryBody where
  | created (inq : InquiryRec) (emailSent : Bool)
  | err (msg : String)
deriving DecidableEq

/-- Result of `POST /api/contact/inquiries`. -/
structure InquiryRes where
  status : Nat
  body : InquiryBody
  state : St
deriving DecidableEq

/-- Whether the handler attempts the notification email:
`mailTransporter && CONTACT_TO_EMAIL && CONTACT_FROM_EMAIL`. -/
def mailAttempted (cfg : MailConfig) : Bool :=
  cfg.hasTransporter && !(cfg.contactTo == "") && !(cfg.contactFrom == "")

/-- `POST /api/contact/inquiries` (server.js:339-399): `400` when `name`,
`email` or `message` is falsy; else persist the inquiry, attempt the
notification when configured (`mailOk` is the relay outcome; a failure is
caught and only leaves `emailSent` false), answer `201` with the inquiry
plus `emailSent`. -/
def postInquiry (st : St) (cfg : MailConfig) (name email phone message : Option String)
    (mailOk : Bool) (now : Nat) : InquiryRes :=
  if !truthy name || !truthy email || !truthy message then
    ⟨400, .err "Missing required fields", st⟩
  else
    let inq : InquiryRec :=
      ⟨name.getD "", email.getD "", phone.getD "", message.getD "", now⟩
    let emailSent := mailAttempted cfg && mailOk
    ⟨201, .created inq emailSent, { st with inquiries := st.inquiries ++ [inq] }⟩

/-! ## Helper lemmas -/

/-- After purging every element satisfying `p` and appending `x`, a scan
for `p` finds exactly `x` (when `x` satisfies `p`). -/
theorem find_of_purge_append {α} (p : α → Bool) (l : List α) (x : α) :
    ((l.filter (fun a => !(p a))) ++ [x]).find? p
      = if p x then some x else none := by
  induction l with
  | nil =>
    cases h : p x <;> simp [List.find?, h]
  | cons a as ih =>
    cases h : p a <;> simp [List.filter_cons, h, List.find?, ih]

/-- After purging every element satisfying `p` and appending `x`, the
elements satisfying `p` are exactly `x` (when `x` satisfies `p`). -/
theorem filter_of_purge_append {α} (p : α → Bool) (l : List α) (x : α) :
    ((l.filter (fun a => !(p a))) ++ [x]).filter p
      = if p x then [x] else [] := by
  induction l with
  | nil =>
    cases h : p x <;> simp [List.filter_cons, h]
  | cons a as ih =>
    cases h : p a <;> simp [List.filter_cons, h, ih]

/-! ## C1: save-cards / load-cards round trip -/

/-- C1 counterexample: the claim quantifies over every branch string, but
at `branch = ""` the save is rejected (`400`) and the follow-up load also
answers `400` with an error body rather than the saved cards, and a
pre-existing record for that branch is not replaced. -/
theorem saveCards_roundtrip_cex :
    (postSaveCards St.empty (some "") (some [])).status = 400 ∧
    (postSaveCards St.empty (some "") (some [])).state = St.empty ∧
    getLoadCards (postSaveCards St.empty (some "") (some [])).state (some "")
      = (400, LoadCardsBody.err "Missing branch") := by
  refine ⟨rfl, rfl, rfl⟩

/-- C1 (amended to non-empty branch): for every non-empty branch `b` and
every cards array, `POST /api/save-cards` succeeds, fully replaces any
prior `CardData` record for `b` (delete-then-insert, no merge), and a
following `GET /api/load-cards?branch=b` answers exactly the saved
array. -/
theorem saveCards_roundtrip (st : St) (b : String) (cs : List Card) (hb : b ≠ "") :
    (postSaveCards st (some b) (some cs)).status = 200 ∧
    (postSaveCards st (some b) (some cs)).state.cardData
      = st.cardData.filter (fun r => !(r.branch == b)) ++ [⟨b, cs⟩] ∧
    getLoadCards (postSaveCards st (some b) (some cs)).state (some b)
      = (200, LoadCardsBody.cards cs) := by
  have hb' : (b == "") = false := beq_eq_false_iff_ne.mpr hb
  refine ⟨?_, ?_, ?_⟩
  · simp [postSaveCards, truthy, hb']
  · simp [postSaveCards, truthy, hb']
  · simp [postSaveCards, truthy, hb', getLoadCards, find_of_purge_append]
    rw [List.find?_eq_none.mpr (fun a _ => by simp)]
    rfl

/-- Witness for the amended C1 at a concrete prior state holding an old
record for the same branch. -/
theorem saveCards_roundtrip_witness :
    (postSaveCards ⟨[], [⟨"mumbai", [blankCard 1]⟩], [], []⟩ (some "mumbai")
        (some [blankCard 2])).status = 200 ∧
    (postSaveCards ⟨[], [⟨"mumbai", [blankCard 1]⟩], [], []⟩ (some "mumbai")
        (some [blankCard 2])).state.cardData
      = [⟨"mumbai", [blankCard 1]⟩].filter (fun r => !(r.branch == "mumbai"))
          ++ [⟨"mumbai", [blankCard 2]⟩] ∧
    getLoadCards (postSaveCards ⟨[], [⟨"mumbai", [blankCard 1]⟩], [], []⟩
        (some "mumbai") (some [blankCard 2])).state (some "mumbai")
      = (200, LoadCardsBody.cards [blankCard 2]) :=
  saveCards_roundtrip ⟨[], [⟨"mumbai", [blankCard 1]⟩], [], []⟩ "mumbai"
    [blankCard 2] (by decide)

/-! ## C8: load-cards for an unknown branch -/

/-- C8 counterexample: in the empty store no record exists for the branch
value `""`, yet `GET /api/load-cards?branch=` (the query present with an
empty value) answers `400` with an error body, not `{cards: []}`. -/
theorem loadCards_unknown_cex :
    St.empty.cardData = [] ∧
    getLoadCards St.empty (some "") = (400, LoadCardsBody.err "Missing branch") ∧
    getLoadCards St.empty (some "") ≠ (200, LoadCardsBody.cards []) := by
  refine ⟨rfl, rfl, by decide⟩

/-- C8 (amended to non-empty branch values): a load for a non-empty
branch with no stored record answers `200 {cards: []}` (never `404`,
never an error), while omitting the branch query answers `400`. -/
theorem loadCards_unknown (st : St) (b : String) (hb : b ≠ "")
    (habs : ∀ r ∈ st.cardData, r.branch ≠ b) :
    getLoadCards st (some b) = (200, LoadCardsBody.cards []) ∧
    getLoadCards st none = (400, LoadCardsBody.err "Missing branch") := by
  have hb' : (b == "") = false := beq_eq_false_iff_ne.mpr hb
  have hfind : st.cardData.find? (fun r => r.branch == b) = none :=
    List.find?_eq_none.mpr (fun r hr => by simpa using habs r hr)
  constructor
  · simp [getLoadCards, truthy, hb', hfind]
  · rfl

/-- Witness for the amended C8 on the empty store. -/
theorem loadCards_unknown_witness :
    getLoadCards St.empty (some "unknown") = (200, LoadCardsBody.cards []) ∧
    getLoadCards St.empty none = (400, LoadCardsBody.err "Missing branch") :=
  loadCards_unknown St.empty "unknown" (by decide) (by simp [St.empty])

/-! ## Upload handler lemmas -/

/-- An enum-valid slot is non-empty. -/
theorem validSlot_nonempty {s : String} (h : validSlot s = true) : (s == "") = false := by
  have h' : s = "before" ∨ s = "after" := by simpa [validSlot] using h
  rcases h' with h' | h' <;> subst h' <;> decide

/-- Closed form of the fully successful upload path: validation passes,
the Cloudinary upload resolves, the slot is enum-valid. -/
theorem postUpload_success_eq (st : St) (b : String) (cn : Option String) (n : Int)
    (s url : String) (now : Nat)
    (hb : b ≠ "") (hn : jsNumber cn = some n) (hs : validSlot s = true) :
    postUpload st true (some b) cn (some s) (some url) now
      = ⟨201, .ok url n s b,
          { st with
              images := st.images.filter (fun i => !(i.cardNum == n && i.slot == s))
                ++ [⟨url, n, s, now⟩]
              cardData := upsertCardData st.cardData b n s url },
          [.remote, .imgDelete, .imgInsert, .cardSave]⟩ := by
  have hb' : (b == "") = false := beq_eq_false_iff_ne.mpr hb
  have hs' : (s == "") = false := validSlot_nonempty hs
  simp [postUpload, truthy, hb', hs', hn, hs]

/-! ## C2: upload supersession and image lookup -/

/-- C2: after a successful upload for `(n, s)`, exactly one `Image`
record for that pair remains — the freshly inserted one — and
`GET /api/images?cardNum=q&slot=s` (with `q` a non-empty string parsing
to `n`) answers exactly that single record with the upload's URL. -/
theorem upload_supersession (st : St) (b : String) (cn : Option String) (n : Int)
    (s url q : String) (now : Nat)
    (hb : b ≠ "") (hn : jsNumber cn = some n) (hs : validSlot s = true)
    (hq : q ≠ "") (hqn : jsNumber (some q) = some n) :
    (postUpload st true (some b) cn (some s) (some url) now).status = 201 ∧
    (postUpload st true (some b) cn (some s) (some url) now).state.images.filter
        (fun i => i.cardNum == n && i.slot == s) = [⟨url, n, s, now⟩] ∧
    getImages (postUpload st true (some b) cn (some s) (some url) now).state
        (some q) (some s)
      = (200, ImagesBody.ok [⟨url, n, s, now⟩]) := by
  rw [postUpload_success_eq st b cn n s url now hb hn hs]
  have hq' : (q == "") = false := beq_eq_false_iff_ne.mpr hq
  have hs' : (s == "") = false := validSlot_nonempty hs
  have hfilt :
      (st.images.filter (fun i => !(i.cardNum == n && i.slot == s))
          ++ [(⟨url, n, s, now⟩ : ImageRec)]).filter
        (fun i => i.cardNum == n && i.slot == s) = [⟨url, n, s, now⟩] := by
    rw [filter_of_purge_append (fun i => i.cardNum == n && i.slot == s)
      st.images ⟨url, n, s, now⟩]
    simp
  refine ⟨rfl, hfilt, ?_⟩
  have hmatch : (imageMatches (some n) (some s))
      = fun i => i.cardNum == n && i.slot == s := by
    funext i; simp [imageMatches]
  simp only [getImages, truthy, hq', hs', Bool.not_false, hqn,
    Option.getD_some, if_true]
  rw [hmatch, hfilt]
  rfl

/-- Witness for C2 superseding a stale record for the same pair. -/
theorem upload_supersession_witness :
    (postUpload ⟨[⟨"old", 3, "before", 0⟩], [], [], []⟩ true (some "pune")
        (some "3") (some "before") (some "new") 7).status = 201 ∧
    (postUpload ⟨[⟨"old", 3, "before", 0⟩], [], [], []⟩ true (some "pune")
        (some "3") (some "before") (some "new") 7).state.images.filter
        (fun i => i.cardNum == 3 && i.slot == "before")
      = [⟨"new", 3, "before", 7⟩] ∧
    getImages (postUpload ⟨[⟨"old", 3, "before", 0⟩], [], [], []⟩ true
        (some "pune") (some "3") (some "before") (some "new") 7).state
        (some "3") (some "before")
      = (200, ImagesBody.ok [⟨"new", 3, "before", 7⟩]) :=
  upload_supersession ⟨[⟨"old", 3, "before", 0⟩], [], [], []⟩ "pune" (some "3") 3
    "before" "new" "3" 7 (by decide) (by decide) (by decide) (by decide) (by decide)

/-! ## C3: remote upload precedes any store write; remote failure is clean -/

/-- C3: the Cloudinary call is never a store write, any store write in
the upload trace happens strictly after the leading Cloudinary event,
and when validation passes but the Cloudinary upload fails the handler
answers `500` leaving every collection untouched. -/
theorem upload_remote_ordering (st : St) (file : Bool)
    (branch cardNum slot : Option String) (remote : Option String) (now : Nat) :
    (isStoreEv UpEv.remote = false ∧
      ((∃ e ∈ (postUpload st file branch cardNum slot remote now).trace,
          isStoreEv e = true) →
        (postUpload st file branch cardNum slot remote now).trace.head?
          = some UpEv.remote)) ∧
    ((file && truthy branch && (jsNumber cardNum).isSome && truthy slot) = true →
      remote = none →
      (postUpload st file branch cardNum slot remote now).status = 500 ∧
      (postUpload st file branch cardNum slot remote now).state = st) := by
  cases hv : (file && truthy branch && (jsNumber cardNum).isSome && truthy slot) with
  | false => simp [postUpload, hv, isStoreEv]
  | true =>
    cases remote with
    | none => simp [postUpload, hv, isStoreEv]
    | some url =>
      cases hvs : validSlot (slot.getD "") <;> simp [postUpload, hv, hvs, isStoreEv]

/-- Witness for C3 at a failing Cloudinary upload. -/
theorem upload_remote_ordering_witness :
    (postUpload St.empty true (some "pune") (some "1") (some "before") none 0).status
      = 500 ∧
    (postUpload St.empty true (some "pune") (some "1") (some "before") none 0).state
      = St.empty :=
  (upload_remote_ordering St.empty true (some "pune") (some "1") (some "before")
    none 0).2 (by decide) rfl

/-! ## C4: upload validation and success response -/

/-- C4: `POST /api/upload` answers `400` exactly when the image part,
`branch` or `slot` is missing/empty (JS-falsy) or `cardNum` does not
coerce to a finite number; otherwise the handler proceeds to the
Cloudinary upload (the first trace event) and, on full success (upload
resolves and the slot passes the schema enum), answers `201` with
`{url, cardNum, slot, branch}`. -/
theorem upload_validation (st : St) (file : Bool)
    (branch cardNum slot : Option String) (remote : Option String) (now : Nat) :
    ((postUpload st file branch cardNum slot remote now).status = 400
      ↔ (file && truthy branch && (jsNumber cardNum).isSome && truthy slot)
          = false) ∧
    ((file && truthy branch && (jsNumber cardNum).isSome && truthy slot) = true →
      (postUpload st file branch cardNum slot remote now).trace.head?
        = some UpEv.remote) ∧
    (∀ url n,
      (file && truthy branch && (jsNumber cardNum).isSome && truthy slot) = true →
      remote = some url → jsNumber cardNum = some n →
      validSlot (slot.getD "") = true →
      (postUpload st file branch cardNum slot remote now).status = 201 ∧
      (postUpload st file branch cardNum slot remote now).body
        = UploadBody.ok url n (slot.getD "") (branch.getD "")) := by
  cases hv : (file && truthy branch && (jsNumber cardNum).isSome && truthy slot) with
  | false =>
    refine ⟨by simp [postUpload, hv], by simp [hv], ?_⟩
    intro url n hv' _ _ _
    exact absurd hv' (by simp)
  | true =>
    cases remote with
    | none =>
      refine ⟨by simp [postUpload, hv], by simp [postUpload, hv], ?_⟩
      intro url n _ hurl _ _
      exact absurd hurl (by simp)
    | some url =>
      cases hvs : validSlot (slot.getD "") with
      | false =>
        refine ⟨by simp [postUpload, hv, hvs], by simp [postUpload, hv, hvs], ?_⟩
        intro url' n _ _ _ hvs'
        exact absurd hvs' (by simp)
      | true =>
        have hv' := hv
        simp only [Bool.and_eq_true] at hv'
        obtain ⟨⟨⟨hf, hbr⟩, hcn⟩, hsl⟩ := hv'
        refine ⟨by simp [postUpload, hv, hvs], by simp [postUpload, hv, hvs], ?_⟩
        intro url' n _ hurl hn _
        injection hurl with hurl'
        subst hurl'
        exact ⟨by simp [postUpload, hf, hbr, hsl, hvs, hn],
               by simp [postUpload, hf, hbr, hsl, hvs, hn]⟩

/-- Witness for C4's success branch at a concrete valid request. -/
theorem upload_validation_witness :
    (postUpload St.empty true (some "pune") (some "2") (some "after")
        (some "u") 5).status = 201 ∧
    (postUpload St.empty true (some "pune") (some "2") (some "after")
        (some "u") 5).body = UploadBody.ok "u" 2 "after" "pune" :=
  (upload_validation St.empty true (some "pune") (some "2") (some "after")
      (some "u") 5).2.2 "u" 2 (by decide) rfl (by decide) (by decide)

/-! ## C9: a slot outside the enum passes validation but fails at insert -/

/-- C9: a non-empty `slot` outside `{before, after}` passes the `400`
check, so the handler performs the Cloudinary upload and the
`Image.deleteMany` purge, then fails with `500` at `image.save` (schema
enum), leaving the card data — hence `beforeImg`/`afterImg` — untouched. -/
theorem upload_invalid_slot (st : St) (b : String) (cn : Option String) (n : Int)
    (s url : String) (now : Nat)
    (hb : b ≠ "") (hn : jsNumber cn = some n) (hs0 : s ≠ "")
    (hsv : validSlot s = false) :
    (postUpload st true (some b) cn (some s) (some url) now).status = 500 ∧
    (postUpload st true (some b) cn (some s) (some url) now).trace
      = [UpEv.remote, UpEv.imgDelete] ∧
    (postUpload st true (some b) cn (some s) (some url) now).state.images
      = st.images.filter (fun i => !(i.cardNum == n && i.slot == s)) ∧
    (postUpload st true (some b) cn (some s) (some url) now).state.cardData
      = st.cardData := by
  have hb' : (b == "") = false := beq_eq_false_iff_ne.mpr hb
  have hs' : (s == "") = false := beq_eq_false_iff_ne.mpr hs0
  refine ⟨?_, ?_, ?_, ?_⟩ <;> simp [postUpload, truthy, hb', hs', hn, hsv]

/-- Witness for C9 at the out-of-enum slot value `"side"`. -/
theorem upload_invalid_slot_witness :
    (postUpload St.empty true (some "pune") (some "4") (some "side")
        (some "u") 9).status = 500 ∧
    (postUpload St.empty true (some "pune") (some "4") (some "side")
        (some "u") 9).trace = [UpEv.remote, UpEv.imgDelete] ∧
    (postUpload St.empty true (some "pune") (some "4") (some "side")
        (some "u") 9).state.images
      = St.empty.images.filter (fun i => !(i.cardNum == 4 && i.slot == "side")) ∧
    (postUpload St.empty true (some "pune") (some "4") (some "side")
        (some "u") 9).state.cardData = St.empty.cardData :=
  upload_invalid_slot St.empty "pune" (some "4") 4 "side" "u" 9
    (by decide) (by decide) (by decide) (by decide)

/-! ## C10: an empty cardNum field coerces to 0 and is accepted -/

/-- C10: an empty (or whitespace-only) `cardNum` form field is not
rejected — `Number('')` is `0`, which is finite — so the request passes
validation and, with the upload resolving and a valid slot, is processed
as an upload for card number `0`. -/
theorem upload_empty_cardnum (st : St) (b cnStr s url : String) (now : Nat)
    (hws : trimChars cnStr.data = []) (hb : b ≠ "") (hs : validSlot s = true) :
    jsNumber (some cnStr) = some 0 ∧
    (postUpload st true (some b) (some cnStr) (some s) (some url) now).status
      = 201 ∧
    (postUpload st true (some b) (some cnStr) (some s) (some url) now).body
      = UploadBody.ok url 0 s b := by
  have h0 : jsNumber (some cnStr) = some 0 := by simp [jsNumber, hws]
  refine ⟨h0, ?_, ?_⟩ <;>
    rw [postUpload_success_eq st b (some cnStr) 0 s url now hb h0 hs]

/-- Witness for C10 at the literally empty `cardNum` field. -/
theorem upload_empty_cardnum_witness :
    jsNumber (some "") = some 0 ∧
    (postUpload St.empty true (some "pune") (some "") (some "before")
        (some "u") 1).status = 201 ∧
    (postUpload St.empty true (some "pune") (some "") (some "before")
        (some "u") 1).body = UploadBody.ok "u" 0 "before" "pune" :=
  upload_empty_cardnum St.empty "pune" "" "before" "u" 1
    (by decide) (by decide) (by decide)

/-! ## Offer lemmas -/

/-- After an upsert of a document keyed `latestOffer`, a scan for that
key finds exactly the upserted document. -/
theorem find_of_upsertOffer (l : List OfferRec) (doc : OfferRec)
    (hd : doc.key = "latestOffer") :
    (upsertOffer l doc).find? (fun o => o.key == "latestOffer") = some doc := by
  induction l with
  | nil => simp [upsertOffer, List.find?, hd]
  | cons o os ih =>
    cases h : (o.key == "latestOffer") with
    | true => simp [upsertOffer, h, List.find?, hd]
    | false => simp [upsertOffer, h, List.find?, ih]

/-- Deleting the first document keyed `latestOffer` from a collection
holding at most one such document (the schema's unique index) leaves
none. -/
theorem find_of_deleteFirstOffer (l : List OfferRec)
    (h : (l.filter (fun o => o.key == "latestOffer")).length ≤ 1) :
    (deleteFirstOffer l).find? (fun o => o.key == "latestOffer") = none := by
  induction l with
  | nil => rfl
  | cons o os ih =>
    rw [List.filter_cons] at h
    cases ho : (o.key == "latestOffer") with
    | true =>
      rw [ho, if_pos rfl] at h
      have hlen : (os.filter (fun o => o.key == "latestOffer")).length = 0 := by
        simpa using h
      have hnil : os.filter (fun o => o.key == "latestOffer") = [] :=
        List.eq_nil_of_length_eq_zero hlen
      have hnone : os.find? (fun o => o.key == "latestOffer") = none :=
        List.find?_eq_none.mpr (List.filter_eq_nil_iff.mp hnil)
      simpa [deleteFirstOffer, ho] using hnone
    | false =>
      rw [ho] at h
      simp only [if_neg Bool.false_ne_true] at h
      simp [deleteFirstOffer, ho, List.find?, ih h]

/-! ## C5: offer upsert round trip -/

/-- C5: `POST /api/offers/latest` answers `400` exactly when title,
details and imageUrl are all empty or absent; with at least one non-empty
field the singleton (fixed key `latestOffer`) is upserted with
`updatedAt` refreshed to the current time, and a following
`GET /api/offers/latest` answers exactly the saved title, details and
imageUrl with that fresh `updatedAt`. -/
theorem offer_post_get (st : St) (title details imageUrl : Option String)
    (now : Nat) :
    ((postOffer st title details imageUrl now).status = 400
      ↔ (title.getD "" = "" ∧ details.getD "" = "" ∧ imageUrl.getD "" = "")) ∧
    (¬(title.getD "" = "" ∧ details.getD "" = "" ∧ imageUrl.getD "" = "") →
      (postOffer st title details imageUrl now).status = 200 ∧
      (postOffer st title details imageUrl now).body
        = OfferPostBody.saved (title.getD "") (details.getD "")
            (imageUrl.getD "") now ∧
      (postOffer st title details imageUrl now).state.offers.find?
          (fun o => o.key == "latestOffer")
        = some ⟨"latestOffer", title.getD "", details.getD "",
            imageUrl.getD "", now⟩ ∧
      getOffer (postOffer st title details imageUrl now).state
        = OfferBody.view (title.getD "") (details.getD "")
            (imageUrl.getD "") now) := by
  cases hc : (title.getD "" == "" && details.getD "" == "" && imageUrl.getD "" == "") with
  | true =>
    have hp : title.getD "" = "" ∧ details.getD "" = "" ∧ imageUrl.getD "" = "" := by
      simpa [and_assoc] using hc
    exact ⟨by simp [postOffer, hp.1, hp.2.1, hp.2.2], fun h => absurd hp h⟩
  | false =>
    have hp : ¬(title.getD "" = "" ∧ details.getD "" = "" ∧ imageUrl.getD "" = "") := by
      intro ⟨h1, h2, h3⟩
      simp [h1, h2, h3] at hc
    have hst : (postOffer st title details imageUrl now).state.offers
        = upsertOffer st.offers
            ⟨"latestOffer", title.getD "", details.getD "", imageUrl.getD "", now⟩ := by
      simp [postOffer, hc]
    have hfind := find_of_upsertOffer st.offers
      ⟨"latestOffer", title.getD "", details.getD "", imageUrl.getD "", now⟩ rfl
    refine ⟨?_, fun _ => ⟨?_, ?_, ?_, ?_⟩⟩
    · simp [postOffer, hc, hp]
    · simp [postOffer, hc]
    · simp [postOffer, hc]
    · rw [hst]
      exact hfind
    · simp only [getOffer, hst, hfind]

/-- Witness for C5 with only the title non-empty. -/
theorem offer_post_get_witness :
    (postOffer St.empty (some "Diwali") none none 3).status = 200 ∧
    (postOffer St.empty (some "Diwali") none none 3).body
      = OfferPostBody.saved "Diwali" "" "" 3 ∧
    (postOffer St.empty (some "Diwali") none none 3).state.offers.find?
        (fun o => o.key == "latestOffer")
      = some ⟨"latestOffer", "Diwali", "", "", 3⟩ ∧
    getOffer (postOffer St.empty (some "Diwali") none none 3).state
      = OfferBody.view "Diwali" "" "" 3 :=
  (offer_post_get St.empty (some "Diwali") none none 3).2 (by decide)

/-! ## C6: offer deletion is idempotent -/

/-- C6: `DELETE /api/offers/latest` always answers `{success: true}`
(absence is not an error) and — under the schema's unique index on `key`
(at most one `latestOffer` document) — a following
`GET /api/offers/latest` answers JSON `null`. -/
theorem offer_delete_idempotent (st : St)
    (huniq : (st.offers.filter (fun o => o.key == "latestOffer")).length ≤ 1) :
    (deleteOffer st).status = 200 ∧
    (deleteOffer st).body = SimpleBody.ok ∧
    getOffer (deleteOffer st).state = OfferBody.nothing := by
  refine ⟨rfl, rfl, ?_⟩
  simp [deleteOffer, getOffer, find_of_deleteFirstOffer st.offers huniq]

/-- Witness for C6 with a stored offer, and the conclusion also checked
on the empty store through the same theorem is not needed: one concrete
application suffices. -/
theorem offer_delete_idempotent_witness :
    (deleteOffer ⟨[], [], [⟨"latestOffer", "t", "d", "u", 1⟩], []⟩).status = 200 ∧
    (deleteOffer ⟨[], [], [⟨"latestOffer", "t", "d", "u", 1⟩], []⟩).body
      = SimpleBody.ok ∧
    getOffer (deleteOffer ⟨[], [], [⟨"latestOffer", "t", "d", "u", 1⟩], []⟩).state
      = OfferBody.nothing :=
  offer_delete_idempotent ⟨[], [], [⟨"latestOffer", "t", "d", "u", 1⟩], []⟩
    (by decide)

/-! ## C7: contact inquiry persistence and email flag -/

/-- C7: `POST /api/contact/inquiries` answers `400` exactly when `name`,
`email` or `message` is missing or empty (and then persists nothing); on
valid input the inquiry is always appended and the answer is `201` with
the persisted inquiry plus `emailSent`, which is true only when the
transport is configured and the relay send succeeds — a send failure or
an unconfigured transport never fails the request. -/
theorem inquiry_post (st : St) (cfg : MailConfig)
    (name email phone message : Option String) (mailOk : Bool) (now : Nat) :
    ((postInquiry st cfg name email phone message mailOk now).status = 400
      ↔ (truthy name && truthy email && truthy message) = false) ∧
    ((postInquiry st cfg name email phone message mailOk now).status = 400 →
      (postInquiry st cfg name email phone message mailOk now).state = st) ∧
    ((truthy name && truthy email && truthy message) = true →
      (postInquiry st cfg name email phone message mailOk now).status = 201 ∧
      (postInquiry st cfg name email phone message mailOk now).state.inquiries
        = st.inquiries
            ++ [⟨name.getD "", email.getD "", phone.getD "", message.getD "", now⟩] ∧
      (postInquiry st cfg name email phone message mailOk now).body
        = InquiryBody.created
            ⟨name.getD "", email.getD "", phone.getD "", message.getD "", now⟩
            (mailAttempted cfg && mailOk)) := by
  cases hn : truthy name <;> cases he : truthy email <;> cases hm : truthy message <;>
    simp [postInquiry, hn, he, hm]

/-- Witness for C7: valid input, no transport configured — the request
succeeds with `emailSent = false` (matching the spec's example). -/
theorem inquiry_post_witness :
    (postInquiry St.empty ⟨false, "", ""⟩ (some "A") (some "a@b.com") none
        (some "hi") false 2).status = 201 ∧
    (postInquiry St.empty ⟨false, "", ""⟩ (some "A") (some "a@b.com") none
        (some "hi") false 2).state.inquiries
      = St.empty.inquiries ++ [⟨"A", "a@b.com", "", "hi", 2⟩] ∧
    (postInquiry St.empty ⟨false, "", ""⟩ (some "A") (some "a@b.com") none
        (some "hi") false 2).body
      = InquiryBody.created ⟨"A", "a@b.com", "", "hi", 2⟩
          (mailAttempted ⟨false, "", ""⟩ && false) :=
  (inquiry_post St.empty ⟨false, "", ""⟩ (some "A") (some "a@b.com") none
    (some "hi") false 2).2.2 (by decide)

end ZumbaServer
